import Mathlib

/-!
Verification of the YOLO/PyQt video stream acquisition and processing system.

This file shallowly embeds the state-bearing parts of the repository:

* `src/detection.py`   — `YoloDetector.detect_and_plot` (skip-frame policy,
  class-filter validation, resize-before-inference, exception passthrough);
* `src/capture_thread.py` — `VideoCaptureThread.run` / `stop` (capture loop
  exits and release of the device handle);
* `src/video_player.py` — `VideoPlayer` (playback flags, idempotent stop);
* `src/main_window.py`  — the segmented-recording state
  (`start_new_save_file`, `start_recording`, `stop_recording`, the rollover
  in `update_frame`, `closeEvent`) together with `safe_release` from
  `src/utils.py`.

External collaborators (the OpenCV capture/writer objects and the YOLO model
runtime) are modelled as abstract handles and as an inference oracle supplied
per call; everything the repository's own code does is translated directly
from the source.
-/

namespace VideoSystem

/-- An image frame: width, height and abstract pixel content
(a numpy ndarray in the source). -/
structure Img where
  width : Nat
  height : Nat
  data : Nat
deriving DecidableEq

/-- A Python value passed as the `frame` argument of `detect_and_plot`:
`None`, a numpy ndarray, or some other (non-ndarray) object. -/
inductive PyFrame where
  | noneVal : PyFrame
  | ndarray : Img → PyFrame
  | other : PyFrame
deriving DecidableEq

/-- One element of a `classes` iterable: an `int`, or anything else
(for which `isinstance(item, int)` is false). -/
inductive ClassItem where
  | intItem : Int → ClassItem
  | nonIntItem : ClassItem
deriving DecidableEq

/-- A Python value passed as the `classes` argument of `detect_and_plot`:
`None`, a string, an iterable of items, or a non-iterable object
(iterating the latter raises `TypeError`). -/
inductive PyClasses where
  | noneVal : PyClasses
  | strVal : String → PyClasses
  | listVal : List ClassItem → PyClasses
  | nonIterable : PyClasses
deriving DecidableEq

/-- Whether a `ClassItem` is an `int` (the `isinstance(item, int)` test). -/
def ClassItem.isInt : ClassItem → Bool
  | .intItem _ => true
  | .nonIntItem => false

/-- Integer value of an item, when it is one. -/
def ClassItem.toInt? : ClassItem → Option Int
  | .intItem n => some n
  | .nonIntItem => none

/-- Lines 50–54 of `src/detection.py`: normalise the `classes` argument.
A string becomes `None`; an iterable containing a non-int becomes `None`;
an iterable of ints is kept; iterating a non-iterable raises (`.error`). -/
def validateClasses : PyClasses → Except Unit (Option (List Int))
  | .noneVal => .ok none
  | .strVal _ => .ok none
  | .listVal items =>
      if items.all ClassItem.isInt then .ok (some (items.filterMap ClassItem.toInt?))
      else .ok none
  | .nonIterable => .error ()

/-- The call `cv2.resize(frame, (640, 480))` with a general target size:
`cv2.resize(img, (w, h))` produces an image of width `w` and height `h`. -/
def cvResize (img : Img) (w h : Nat) : Img :=
  { width := w, height := h, data := img.data }

/-- Outcome of one inference attempt (`self.model(resized_frame, ...)`
followed by the `results` handling): the model call raised, it returned an
empty result list, or it returned results whose `r.plot()` is `img`. -/
inductive InferOutcome where
  | raises : InferOutcome
  | resultsEmpty : InferOutcome
  | annotated : Img → InferOutcome
deriving DecidableEq

/-- Result of a Python call as seen by the caller: a normal return of
`None`-or-ndarray, or a propagated exception. -/
inductive PyResult where
  | ret : Option Img → PyResult
  | raises : PyResult
deriving DecidableEq

/-- Mutable state of a `YoloDetector` (constructor lines 22–29 of
`src/detection.py`; the loaded model itself is external). -/
structure YoloDetector where
  skip_frames : Nat
  frame_count : Nat
  last_result : Option Img
deriving DecidableEq

/-- A freshly constructed detector: `frame_count = 0`, `last_result = None`. -/
def YoloDetector.fresh (skip : Nat) : YoloDetector :=
  { skip_frames := skip, frame_count := 0, last_result := none }

/-- Everything observable about one `detect_and_plot` call: the detector
state afterwards, the Python-level result, and — when the model was actually
invoked — the image and class filter it was invoked with. -/
structure DetectOutput where
  det : YoloDetector
  result : PyResult
  invoked : Option (Img × Option (List Int))
deriving DecidableEq

/-- Lines 31–79 of `src/detection.py`: `YoloDetector.detect_and_plot`.
The behaviour of `self.model(...)`/`r.plot()` on the resized frame is
supplied by the `oracle` argument. -/
def YoloDetector.detect_and_plot (d : YoloDetector) (frame : PyFrame)
    (classes : PyClasses) (oracle : Img → Option (List Int) → InferOutcome) :
    DetectOutput :=
  match frame with
  | .noneVal => { det := d, result := .ret none, invoked := none }
  | .other => { det := d, result := .ret none, invoked := none }
  | .ndarray img =>
    let d1 : YoloDetector := { d with frame_count := d.frame_count + 1 }
    if d1.frame_count % (d1.skip_frames + 1) ≠ 1 then
      match d1.last_result with
      | some r => { det := d1, result := .ret (some r), invoked := none }
      | none => { det := d1, result := .ret (some img), invoked := none }
    else
      match validateClasses classes with
      | .error _ => { det := d1, result := .raises, invoked := none }
      | .ok cls =>
        let resized := cvResize img 640 480
        match oracle resized cls with
        | .raises =>
            { det := d1, result := .ret (some img), invoked := some (resized, cls) }
        | .resultsEmpty =>
            { det := { d1 with last_result := some img },
              result := .ret (some img), invoked := some (resized, cls) }
        | .annotated a =>
            { det := { d1 with last_result := some a },
              result := .ret (some a), invoked := some (resized, cls) }

/-- Run `detect_and_plot` on a list of valid (ndarray) frames, threading the
detector state; the oracle may depend on the call position via the current
`frame_count`. -/
def runDetect (d : YoloDetector)
    (oracle : Nat → Img → Option (List Int) → InferOutcome)
    (classes : PyClasses) : List Img → List DetectOutput
  | [] => []
  | img :: rest =>
    let out := d.detect_and_plot (.ndarray img) classes (oracle d.frame_count)
    out :: runDetect out.det oracle classes rest

/-- The cached `last_result` held just before the `i`-th call of a run that
started from detector `d` and produced outputs `outs`. -/
def prevCache (d : YoloDetector) (outs : List DetectOutput) : Nat → Option Img
  | 0 => d.last_result
  | i + 1 =>
    match outs.get? i with
    | some o => o.det.last_result
    | none => none

/-! ### Capture thread (`src/capture_thread.py`) -/

/-- How `VideoCaptureThread.run` terminated: the open check failed, a frame
read failed, or the stop flag was observed false at the top of the loop. -/
inductive CaptureExit where
  | openFail : CaptureExit
  | readFail : CaptureExit
  | stopped : CaptureExit
deriving DecidableEq

/-- Observable outcome of one execution of `VideoCaptureThread.run`:
whether `self.cap.release()` was called before `run` returned, and which
terminal exit was taken. -/
structure CaptureRun where
  released : Bool
  exitKind : CaptureExit
deriving DecidableEq

/-- The `while self._running` loop of `run` (lines 45–66): `reads i` tells
whether the `i`-th `self.cap.read()` succeeds; `fuel` is the number of loop
iterations before the stop request (`self._running = False`) is observed at
the loop head.  Both loop exits fall through to the release at lines 65–66. -/
def captureLoop (reads : Nat → Bool) : Nat → Nat → CaptureRun
  | _, 0 => { released := true, exitKind := .stopped }
  | i, fuel + 1 =>
    if reads i then captureLoop reads (i + 1) fuel
    else { released := true, exitKind := .readFail }

/-- Lines 28–66 of `src/capture_thread.py`: `VideoCaptureThread.run`.
When `self.cap.isOpened()` is false, `run` returns at line 43 — before the
release at lines 65–66 ever executes. -/
def VideoCaptureThread.run (opened : Bool) (reads : Nat → Bool)
    (stopAfter : Nat) : CaptureRun :=
  if opened then captureLoop reads 0 stopAfter
  else { released := false, exitKind := .openFail }

/-- The flag state of a `VideoCaptureThread` relevant to `stop`. -/
structure CaptureThreadState where
  running : Bool
  threadActive : Bool
deriving DecidableEq

/-- Lines 68–72 of `src/capture_thread.py`: `stop` clears `_running` and
joins the thread (`quit`/`wait`); both are no-ops on a finished thread. -/
def CaptureThreadState.stop (t : CaptureThreadState) : CaptureThreadState :=
  { t with running := false, threadActive := false }

/-! ### Video player (`src/video_player.py`) -/

/-- State of a `VideoPlayer`: the two playback flags, whether the `QTimer`
is active, and the `cv2.VideoCapture` handle (`None` after release). -/
structure VideoPlayer where
  isPlaying : Bool
  isPaused : Bool
  timerActive : Bool
  cap : Option Nat
deriving DecidableEq

/-- A `VideoPlayer` as built by `__init__`: both flags false, timer not
started, no capture handle yet. -/
def VideoPlayer.fresh : VideoPlayer :=
  { isPlaying := false, isPaused := false, timerActive := false, cap := none }

/-- The `open` method sets `self.cap` to a fresh `cv2.VideoCapture` object
(the handle exists whether or not the file opened successfully). -/
def VideoPlayer.openFile (p : VideoPlayer) (h : Nat) : VideoPlayer :=
  { p with cap := some h }

/-- Lines 33–36: `start` sets playing, clears paused, starts the timer. -/
def VideoPlayer.start (p : VideoPlayer) : VideoPlayer :=
  { p with isPlaying := true, isPaused := false, timerActive := true }

/-- Lines 38–41: `pause` sets paused, clears playing, stops the timer. -/
def VideoPlayer.pause (p : VideoPlayer) : VideoPlayer :=
  { p with isPaused := true, isPlaying := false, timerActive := false }

/-- Externally visible side effects of a `VideoPlayer.stop` call: stopping
the timer, or releasing a capture handle. -/
inductive PlayerEffect where
  | timerStopped : PlayerEffect
  | capReleased : Nat → PlayerEffect
deriving DecidableEq

/-- Lines 43–50 of `src/video_player.py`: `stop` clears both flags, stops
the timer only if it is active, and releases the capture handle only if one
is present, setting it to `None`.  The effect list records which of the two
conditional calls actually ran. -/
def VideoPlayer.stop (p : VideoPlayer) : VideoPlayer × List PlayerEffect :=
  let fx1 : List PlayerEffect := if p.timerActive then [.timerStopped] else []
  let fx2 : List PlayerEffect :=
    match p.cap with
    | some h => [.capReleased h]
    | none => []
  ({ isPlaying := false, isPaused := false, timerActive := false, cap := none },
   fx1 ++ fx2)

/-- The player operations a caller can issue (the main window's
`play_video`/`pause_video`/`stop_video`/`load_video` paths call these). -/
inductive PlayerOp where
  | start : PlayerOp
  | pause : PlayerOp
  | stop : PlayerOp
  | openFile : Nat → PlayerOp
deriving DecidableEq

/-- Apply one player operation to the state. -/
def VideoPlayer.applyOp (p : VideoPlayer) : PlayerOp → VideoPlayer
  | .start => p.start
  | .pause => p.pause
  | .stop => p.stop.1
  | .openFile h => p.openFile h

/-! ### Segmented recording (`src/main_window.py` + `src/utils.py`)

Writer handles are abstract ids.  `openHandles` is the set (as a list) of
writer ids that have been opened by `cv2.VideoWriter(...)` and not yet
released — the "active output writer handles" of the recording run.  Every
intermediate state of every operation is collected into a trace, so
"at every instant" can be stated as a property of all trace states. -/

/-- Recording-related fields of `MainWindow` (initialised at lines 54–65),
plus the bookkeeping of which writer handles are currently open. -/
structure RecState where
  isRecording : Bool
  recordOut : Option Nat
  baseFilePath : Option Nat
  recordSegmentCounter : Nat
  openHandles : List Nat
  nextId : Nat
deriving DecidableEq

/-- The `MainWindow.__init__` recording state: not recording, no writer,
no base path, segment counter 0. -/
def RecState.init : RecState :=
  { isRecording := false, recordOut := none, baseFilePath := none,
    recordSegmentCounter := 0, openHandles := [], nextId := 0 }

/-- Lines 51–59 of `src/utils.py` applied to `self.recordOut`:
`safe_release` releases the object `recordOut` points to (if any) and
swallows errors; it does not change `recordOut` itself. -/
def RecState.safe_release (s : RecState) : RecState :=
  match s.recordOut with
  | none => s
  | some h => { s with openHandles := s.openHandles.erase h }

/-- Lines 619–641 of `src/main_window.py`: `start_new_save_file`.
Returns the list of intermediate states (one per executed statement that
changes recording state) and the final state.  `ok` is whether the
`cv2.VideoWriter` constructor succeeds; on failure `recordOut` keeps its
previous (already released) value. -/
def RecState.start_new_save_file (s : RecState) (ok : Bool) :
    List RecState × RecState :=
  match s.baseFilePath with
  | none => ([], s)
  | some _ =>
    let s1 := { s with recordSegmentCounter := s.recordSegmentCounter + 1 }
    let s2 := s1.safe_release
    let s3 :=
      if ok then
        { s2 with recordOut := some s2.nextId,
                  openHandles := s2.nextId :: s2.openHandles,
                  nextId := s2.nextId + 1 }
      else s2
    ([s1, s2, s3], s3)

/-- Lines 643–650: `stop_recording` — when recording, clear the flag,
release the current writer, and null out writer and base path. -/
def RecState.stop_recording (s : RecState) : List RecState × RecState :=
  if s.isRecording then
    let s1 := { s with isRecording := false }
    let s2 := s1.safe_release
    let s3 := { s2 with recordOut := none, baseFilePath := none }
    ([s1, s2, s3], s3)
  else ([], s)

/-- Lines 584–617: `start_recording` — when not recording, set the flag and
reset the segment counter; if the save dialog is cancelled (`path = none`)
clear the flag again, otherwise store the base path and open segment 0 via
`start_new_save_file`. -/
def RecState.start_recording (s : RecState) (path : Option Nat) (ok : Bool) :
    List RecState × RecState :=
  if s.isRecording then ([], s)
  else
    let s1 := { s with isRecording := true, recordSegmentCounter := 0 }
    match path with
    | none =>
      let s2 := { s1 with isRecording := false }
      ([s1, s2], s2)
    | some p =>
      let s2 := { s1 with baseFilePath := some p }
      let t := s2.start_new_save_file ok
      (s1 :: s2 :: t.1, t.2)

/-- Lines 550–566: the recording part of `update_frame` — when recording
and the frame is not `None`, roll over to a new segment if the elapsed-time
threshold is reached (`due`), then write the frame (writing does not change
any handle state). -/
def RecState.update_frame (s : RecState) (frameSome due ok : Bool) :
    List RecState × RecState :=
  if s.isRecording && frameSome then
    if due then s.start_new_save_file ok else ([], s)
  else ([], s)

/-- Line 854 (`closeEvent`): `safe_release(self.recordOut)`. -/
def RecState.closeRelease (s : RecState) : List RecState × RecState :=
  let s1 := s.safe_release
  ([s1], s1)

/-- The recording-related events a run can consist of. -/
inductive RecEvent where
  | startRec : Option Nat → Bool → RecEvent
  | frame : Bool → Bool → Bool → RecEvent
  | stopRec : RecEvent
  | close : RecEvent
deriving DecidableEq

/-- Dispatch one event to the corresponding operation. -/
def RecState.step (s : RecState) : RecEvent → List RecState × RecState
  | .startRec path ok => s.start_recording path ok
  | .frame frameSome due ok => s.update_frame frameSome due ok
  | .stopRec => s.stop_recording
  | .close => s.closeRelease

/-- All intermediate states visited while processing a list of events. -/
def recTrace (s : RecState) : List RecEvent → List RecState
  | [] => []
  | e :: rest =>
    let t := s.step e
    t.1 ++ recTrace t.2 rest

/-- The final state after processing a list of events. -/
def recExec (s : RecState) : List RecEvent → RecState
  | [] => s
  | e :: rest => recExec (s.step e).2 rest

/-- Inductive invariant of the recording state at operation boundaries:
at most one open writer handle, every open handle is the current
`recordOut`, and outside a recording there is no current writer. -/
def RecInv (s : RecState) : Prop :=
  s.openHandles.length ≤ 1 ∧
  (∀ h ∈ s.openHandles, s.recordOut = some h) ∧
  (s.isRecording = false → s.recordOut = none)

/-- The playback-flag exclusivity predicate. -/
def flagsOK (p : VideoPlayer) : Prop :=
  ¬(p.isPlaying = true ∧ p.isPaused = true)

/-- A placeholder output used only as the default of `List.getD`. -/
def dummyOut : DetectOutput :=
  { det := YoloDetector.fresh 0, result := .ret none, invoked := none }

/-- A `classes` value that is syntactically invalid in the sense of the
spec: a string, or an iterable containing a non-integer element. -/
def classesSyntacticallyInvalid (c : PyClasses) : Prop :=
  (∃ s, c = .strVal s) ∨
  (∃ items, c = .listVal items ∧ ClassItem.nonIntItem ∈ items)

/-! ### Helper lemmas -/

/-- The capture loop (stop-request and read-failure exits alike) always
falls through to the release at the end of `run`. -/
theorem captureLoop_released (reads : Nat → Bool) :
    ∀ fuel i, (captureLoop reads i fuel).released = true := by
  intro fuel
  induction fuel with
  | zero => intro i; rfl
  | succ n ih =>
    intro i
    unfold captureLoop
    by_cases h : reads i
    · simpa [h] using ih (i + 1)
    · simp [h]

/-- Every single player operation leaves the flag exclusivity intact. -/
theorem applyOp_flagsOK (p : VideoPlayer) (hp : flagsOK p) (op : PlayerOp) :
    flagsOK (p.applyOp op) := by
  cases op with
  | start => simp [flagsOK, VideoPlayer.applyOp, VideoPlayer.start]
  | pause => simp [flagsOK, VideoPlayer.applyOp, VideoPlayer.pause]
  | stop => simp [flagsOK, VideoPlayer.applyOp, VideoPlayer.stop]
  | openFile h => simpa [flagsOK, VideoPlayer.applyOp, VideoPlayer.openFile] using hp

/-- Flag exclusivity is preserved by any sequence of player operations. -/
theorem foldl_flagsOK :
    ∀ (ops : List PlayerOp) (p : VideoPlayer), flagsOK p →
      flagsOK (ops.foldl VideoPlayer.applyOp p) := by
  intro ops
  induction ops with
  | nil => intro p hp; exact hp
  | cons op rest ih => intro p hp; exact ih _ (applyOp_flagsOK p hp op)

/-- A single `detect_and_plot` call on a valid frame always increments the
frame counter by exactly one and never changes `skip_frames`. -/
theorem detect_step_det (d : YoloDetector) (img : Img) (classes : PyClasses)
    (oracle : Img → Option (List Int) → InferOutcome) :
    (d.detect_and_plot (.ndarray img) classes oracle).det.frame_count
        = d.frame_count + 1 ∧
    (d.detect_and_plot (.ndarray img) classes oracle).det.skip_frames
        = d.skip_frames := by
  by_cases h : (d.frame_count + 1) % (d.skip_frames + 1) = 1
  · rcases hv : validateClasses classes with e | cls
    · simp [YoloDetector.detect_and_plot, h, hv]
    · rcases ho : oracle (cvResize img 640 480) cls with _ | _ | a <;>
        simp [YoloDetector.detect_and_plot, h, hv, ho]
  · cases hl : d.last_result <;> simp [YoloDetector.detect_and_plot, h, hl]

/-- With an iterable `classes`, the model is invoked exactly when the
incremented frame counter is ≡ 1 modulo `skip_frames + 1`. -/
theorem detect_step_invoked (d : YoloDetector) (img : Img) (classes : PyClasses)
    (cls : Option (List Int)) (oracle : Img → Option (List Int) → InferOutcome)
    (hc : validateClasses classes = .ok cls) :
    ((d.detect_and_plot (.ndarray img) classes oracle).invoked.isSome = true ↔
      (d.frame_count + 1) % (d.skip_frames + 1) = 1) := by
  by_cases h : (d.frame_count + 1) % (d.skip_frames + 1) = 1
  · rcases ho : oracle (cvResize img 640 480) cls with _ | _ | a <;>
      simp [YoloDetector.detect_and_plot, h, hc, ho]
  · cases hl : d.last_result <;> simp [YoloDetector.detect_and_plot, h, hl]

/-- A skipped call returns the cached result when one exists, else the
input frame, performs no inference, and only bumps the counter. -/
theorem detect_step_skip (d : YoloDetector) (img : Img) (classes : PyClasses)
    (oracle : Img → Option (List Int) → InferOutcome)
    (hskip : (d.frame_count + 1) % (d.skip_frames + 1) ≠ 1) :
    d.detect_and_plot (.ndarray img) classes oracle
      = { det := { d with frame_count := d.frame_count + 1 },
          result := .ret (some (d.last_result.getD img)),
          invoked := none } := by
  cases hl : d.last_result <;> simp [YoloDetector.detect_and_plot, hskip, hl]

/-- Unfolding of `prevCache` along the run. -/
theorem prevCache_cons (d : YoloDetector) (out : DetectOutput)
    (outs : List DetectOutput) (j : Nat) :
    prevCache d (out :: outs) (j + 1) = prevCache out.det outs j := by
  cases j with
  | zero => rfl
  | succ k => rfl

/-- Combined specification of a whole run over valid frames: the `i`-th
output has frame counter `i + 1` more than the start, preserves
`skip_frames`, is an inference call exactly when that counter hits
≡ 1 mod `skip_frames + 1`, and on skipped calls returns the cached
result-or-input while leaving the cache unchanged. -/
theorem runDetect_get? (oracle : Nat → Img → Option (List Int) → InferOutcome)
    (classes : PyClasses) (cls : Option (List Int))
    (hc : validateClasses classes = .ok cls) :
    ∀ (imgs : List Img) (d : YoloDetector) (i : Nat) (o : DetectOutput) (fi : Img),
      (runDetect d oracle classes imgs).get? i = some o →
      imgs.get? i = some fi →
      o.det.skip_frames = d.skip_frames ∧
      o.det.frame_count = d.frame_count + i + 1 ∧
      (o.invoked.isSome = true ↔
        (d.frame_count + i + 1) % (d.skip_frames + 1) = 1) ∧
      ((d.frame_count + i + 1) % (d.skip_frames + 1) ≠ 1 →
        o.result = .ret (some
          ((prevCache d (runDetect d oracle classes imgs) i).getD fi)) ∧
        o.det.last_result = prevCache d (runDetect d oracle classes imgs) i) := by
  intro imgs
  induction imgs with
  | nil => intro d i o fi ho; simp [runDetect] at ho
  | cons img rest ih =>
    intro d i o fi ho hf
    cases i with
    | zero =>
      have hout : d.detect_and_plot (.ndarray img) classes (oracle d.frame_count) = o := by
        simpa [runDetect] using ho
      have hfi : img = fi := by simpa using hf
      subst hfi
      obtain ⟨hcount, hskip⟩ :=
        detect_step_det d img classes (oracle d.frame_count)
      rw [hout] at hcount hskip
      refine ⟨hskip, by simpa using hcount, ?_, ?_⟩
      · rw [← hout]
        simpa using detect_step_invoked d img classes cls (oracle d.frame_count) hc
      · intro hns
        have hns' : (d.frame_count + 1) % (d.skip_frames + 1) ≠ 1 := by
          simpa using hns
        have hstep := detect_step_skip d img classes (oracle d.frame_count) hns'
        rw [hstep] at hout
        constructor
        · rw [← hout]; rfl
        · rw [← hout]; rfl
    | succ j =>
      have ho' : (runDetect
          (d.detect_and_plot (.ndarray img) classes (oracle d.frame_count)).det
          oracle classes rest).get? j = some o := by
        simpa [runDetect] using ho
      have hf' : rest.get? j = some fi := by simpa using hf
      obtain ⟨hcount, hskip⟩ :=
        detect_step_det d img classes (oracle d.frame_count)
      obtain ⟨ih1, ih2, ih3, ih4⟩ := ih
        (d.detect_and_plot (.ndarray img) classes (oracle d.frame_count)).det
        j o fi ho' hf'
      have harith : (d.detect_and_plot (.ndarray img) classes
            (oracle d.frame_count)).det.frame_count + j + 1
          = d.frame_count + (j + 1) + 1 := by
        rw [hcount]; omega
      refine ⟨by rw [ih1, hskip], by rw [ih2, harith], ?_, ?_⟩
      · rw [ih3, harith, hskip]
      · intro hns
        rw [← harith, ← hskip] at hns
        obtain ⟨hres, hlast⟩ := ih4 hns
        have hpc : prevCache d (runDetect d oracle classes (img :: rest)) (j + 1)
            = prevCache
                (d.detect_and_plot (.ndarray img) classes (oracle d.frame_count)).det
                (runDetect
                  (d.detect_and_plot (.ndarray img) classes (oracle d.frame_count)).det
                  oracle classes rest) j := by
          have : runDetect d oracle classes (img :: rest)
              = d.detect_and_plot (.ndarray img) classes (oracle d.frame_count)
                :: runDetect
                    (d.detect_and_plot (.ndarray img) classes (oracle d.frame_count)).det
                    oracle classes rest := rfl
          rw [this, prevCache_cons]
        rw [hpc]
        exact ⟨hres, hlast⟩

/-! ### Claim theorems -/

/-- C10: a `detect_and_plot` call whose frame is `None` or not an ndarray
returns Python `None`, leaves the frame counter and cached result unchanged,
and performs no inference (lines 36–37 of `src/detection.py`). -/
theorem detect_and_plot_non_ndarray_returns_none
    (d : YoloDetector) (classes : PyClasses)
    (oracle : Img → Option (List Int) → InferOutcome) :
    d.detect_and_plot .noneVal classes oracle
      = { det := d, result := .ret none, invoked := none } ∧
    d.detect_and_plot .other classes oracle
      = { det := d, result := .ret none, invoked := none } :=
  ⟨rfl, rfl⟩

/-- C1: when the model call raises during an inference-triggering call,
`detect_and_plot` returns normally (no exception reaches the caller) with
the original, pre-resize input frame, and the only state change is the
frame-counter increment (lines 60–68 of `src/detection.py`). -/
theorem detect_and_plot_inference_error_passthrough
    (d : YoloDetector) (img : Img) (classes : PyClasses)
    (cls : Option (List Int)) (oracle : Img → Option (List Int) → InferOutcome)
    (hc : validateClasses classes = .ok cls)
    (htrig : (d.frame_count + 1) % (d.skip_frames + 1) = 1)
    (hraise : oracle (cvResize img 640 480) cls = .raises) :
    d.detect_and_plot (.ndarray img) classes oracle
      = { det := { d with frame_count := d.frame_count + 1 },
          result := .ret (some img),
          invoked := some (cvResize img 640 480, cls) } := by
  simp [YoloDetector.detect_and_plot, htrig, hc, hraise]

/-- C1 witness: concrete instantiation of the inference-exception theorem
at a fresh `skip_frames = 2` detector. -/
theorem detect_and_plot_inference_error_passthrough_witness :
    validateClasses PyClasses.noneVal = .ok none ∧
    (0 + 1) % (2 + 1) = 1 ∧
    YoloDetector.detect_and_plot ⟨2, 0, none⟩ (.ndarray ⟨100, 200, 7⟩)
        PyClasses.noneVal (fun _ _ => .raises)
      = { det := ⟨2, 1, none⟩,
          result := .ret (some ⟨100, 200, 7⟩),
          invoked := some (cvResize ⟨100, 200, 7⟩ 640 480, none) } :=
  ⟨rfl, rfl,
    detect_and_plot_inference_error_passthrough ⟨2, 0, none⟩ ⟨100, 200, 7⟩
      PyClasses.noneVal none (fun _ _ => .raises) rfl rfl rfl⟩

/-- C8: an inference-triggering call first resizes the input to the fixed
640×480 working resolution, invokes the model on the resized image, and
returns the annotated result at that working resolution without resizing it
back to the input's resolution; a call that skips inference returns the
cached result or the unmodified input, with no resize applied
(lines 56–76 of `src/detection.py`). -/
theorem detect_and_plot_working_resolution
    (d : YoloDetector) (img a : Img) (classes : PyClasses)
    (cls : Option (List Int)) (oracle : Img → Option (List Int) → InferOutcome) :
    ((d.frame_count + 1) % (d.skip_frames + 1) = 1 →
      validateClasses classes = .ok cls →
      oracle (cvResize img 640 480) cls = .annotated a →
      a.width = (cvResize img 640 480).width →
      a.height = (cvResize img 640 480).height →
      (d.detect_and_plot (.ndarray img) classes oracle).invoked
        = some (cvResize img 640 480, cls) ∧
      (cvResize img 640 480).width = 640 ∧
      (cvResize img 640 480).height = 480 ∧
      (d.detect_and_plot (.ndarray img) classes oracle).result = .ret (some a) ∧
      a.width = 640 ∧ a.height = 480) ∧
    ((d.frame_count + 1) % (d.skip_frames + 1) ≠ 1 →
      (d.detect_and_plot (.ndarray img) classes oracle).result
        = .ret (some (d.last_result.getD img)) ∧
      (d.detect_and_plot (.ndarray img) classes oracle).invoked = none) := by
  constructor
  · intro htrig hc ha hw hh
    simp [cvResize] at hw hh
    refine ⟨?_, rfl, rfl, ?_, hw, hh⟩ <;>
      simp [YoloDetector.detect_and_plot, htrig, hc, ha]
  · intro hskip
    cases hl : d.last_result <;>
      simp [YoloDetector.detect_and_plot, hskip, hl]

/-- C8 witness: concrete instantiation, trigger branch at a fresh detector
with a 1920×1080 input, skip branch at the following call. -/
theorem detect_and_plot_working_resolution_witness :
    ((0 + 1) % (2 + 1) = 1 →
      validateClasses PyClasses.noneVal = .ok none →
      (fun (_ : Img) (_ : Option (List Int)) => InferOutcome.annotated ⟨640, 480, 3⟩)
          (cvResize ⟨1920, 1080, 3⟩ 640 480) none = .annotated ⟨640, 480, 3⟩ →
      (⟨640, 480, 3⟩ : Img).width = (cvResize ⟨1920, 1080, 3⟩ 640 480).width →
      (⟨640, 480, 3⟩ : Img).height = (cvResize ⟨1920, 1080, 3⟩ 640 480).height →
      (YoloDetector.detect_and_plot ⟨2, 0, none⟩ (.ndarray ⟨1920, 1080, 3⟩)
          PyClasses.noneVal fun _ _ => .annotated ⟨640, 480, 3⟩).invoked
        = some (cvResize ⟨1920, 1080, 3⟩ 640 480, none) ∧
      (cvResize ⟨1920, 1080, 3⟩ 640 480).width = 640 ∧
      (cvResize ⟨1920, 1080, 3⟩ 640 480).height = 480 ∧
      (YoloDetector.detect_and_plot ⟨2, 0, none⟩ (.ndarray ⟨1920, 1080, 3⟩)
          PyClasses.noneVal fun _ _ => .annotated ⟨640, 480, 3⟩).result
        = .ret (some ⟨640, 480, 3⟩) ∧
      (⟨640, 480, 3⟩ : Img).width = 640 ∧ (⟨640, 480, 3⟩ : Img).height = 480) ∧
    ((1 + 1) % (2 + 1) ≠ 1 →
      (YoloDetector.detect_and_plot ⟨2, 1, some ⟨640, 480, 3⟩⟩
          (.ndarray ⟨1920, 1080, 3⟩) PyClasses.noneVal
          fun _ _ => .annotated ⟨640, 480, 3⟩).result
        = .ret (some ((some (⟨640, 480, 3⟩ : Img)).getD ⟨1920, 1080, 3⟩)) ∧
      (YoloDetector.detect_and_plot ⟨2, 1, some ⟨640, 480, 3⟩⟩
          (.ndarray ⟨1920, 1080, 3⟩) PyClasses.noneVal
          fun _ _ => .annotated ⟨640, 480, 3⟩).invoked = none) :=
  ⟨(detect_and_plot_working_resolution ⟨2, 0, none⟩ ⟨1920, 1080, 3⟩ ⟨640, 480, 3⟩
      PyClasses.noneVal none (fun _ _ => .annotated ⟨640, 480, 3⟩)).1,
   (detect_and_plot_working_resolution ⟨2, 1, some ⟨640, 480, 3⟩⟩ ⟨1920, 1080, 3⟩
      ⟨640, 480, 3⟩ PyClasses.noneVal none
      (fun _ _ => .annotated ⟨640, 480, 3⟩)).2⟩

/-- C2 counterexample: with `skip_frames = 0` the guard
`frame_count % (skip_frames + 1) != 1` is `n % 1 != 1`, which is true for
every `n`, so even the very first call on a fresh detector performs no
inference and passes the input through — the claim requires inference on
every call when `skip_frames = 0`. -/
theorem skip_frames_zero_never_infers :
    YoloDetector.detect_and_plot ⟨0, 0, none⟩ (.ndarray ⟨640, 480, 9⟩)
        PyClasses.noneVal (fun _ _ => .annotated ⟨640, 480, 0⟩)
      = { det := ⟨0, 1, none⟩, result := .ret (some ⟨640, 480, 9⟩),
          invoked := none } :=
  rfl

/-- C2 amended: for `skip_frames ≥ 1`, over any run of valid frames from a
fresh detector, the counter increments once per call, inference is
triggered exactly on the calls `n` with `n ≡ 1 (mod skip_frames + 1)`
(the first call, then every `(skip_frames + 1)`-th call after it), and all
intervening calls return the most recent cached result if one exists, else
the input frame unchanged. -/
theorem detect_and_plot_skip_policy
    (skip : Nat) (imgs : List Img) (classes : PyClasses) (cls : Option (List Int))
    (oracle : Nat → Img → Option (List Int) → InferOutcome)
    (i : Nat) (o : DetectOutput) (fi : Img)
    (hskip : 1 ≤ skip)
    (hc : validateClasses classes = .ok cls)
    (ho : (runDetect (YoloDetector.fresh skip) oracle classes imgs).get? i = some o)
    (hf : imgs.get? i = some fi) :
    o.det.frame_count = i + 1 ∧
    (o.invoked.isSome = true ↔ (i + 1) % (skip + 1) = 1) ∧
    ((i + 1) % (skip + 1) ≠ 1 →
      o.result = .ret (some ((prevCache (YoloDetector.fresh skip)
        (runDetect (YoloDetector.fresh skip) oracle classes imgs) i).getD fi))) := by
  obtain ⟨h1, h2, h3, h4⟩ :=
    runDetect_get? oracle classes cls hc imgs (YoloDetector.fresh skip) i o fi ho hf
  simp only [YoloDetector.fresh] at h2 h3 h4
  refine ⟨by omega, by simpa using h3, fun hns => ?_⟩
  exact (h4 (by simpa using hns)).1

/-- C2 witness: `skip_frames = 1`, two calls; the second call (counter 2,
`2 % 2 = 0 ≠ 1`) skips inference and returns the result cached by the
first call's successful inference. -/
theorem detect_and_plot_skip_policy_witness :
    1 ≤ 1 ∧
    validateClasses PyClasses.noneVal = .ok none ∧
    (runDetect (YoloDetector.fresh 1)
        (fun _ _ _ => .annotated ⟨640, 480, 5⟩) PyClasses.noneVal
        [⟨8, 6, 1⟩, ⟨8, 6, 2⟩]).get? 1
      = some { det := ⟨1, 2, some ⟨640, 480, 5⟩⟩,
               result := .ret (some ⟨640, 480, 5⟩), invoked := none } ∧
    ([⟨8, 6, 1⟩, ⟨8, 6, 2⟩] : List Img).get? 1 = some ⟨8, 6, 2⟩ ∧
    (({ det := ⟨1, 2, some ⟨640, 480, 5⟩⟩,
        result := .ret (some ⟨640, 480, 5⟩), invoked := none } : DetectOutput).det.frame_count
      = 1 + 1 ∧
    (({ det := ⟨1, 2, some ⟨640, 480, 5⟩⟩,
        result := .ret (some ⟨640, 480, 5⟩),
        invoked := none } : DetectOutput).invoked.isSome = true ↔ (1 + 1) % (1 + 1) = 1) ∧
    ((1 + 1) % (1 + 1) ≠ 1 →
      ({ det := ⟨1, 2, some ⟨640, 480, 5⟩⟩,
         result := .ret (some ⟨640, 480, 5⟩),
         invoked := none } : DetectOutput).result
        = .ret (some ((prevCache (YoloDetector.fresh 1)
            (runDetect (YoloDetector.fresh 1)
              (fun _ _ _ => .annotated ⟨640, 480, 5⟩) PyClasses.noneVal
              [⟨8, 6, 1⟩, ⟨8, 6, 2⟩]) 1).getD ⟨8, 6, 2⟩)))) :=
  ⟨Nat.le_refl 1, rfl, rfl, rfl,
    detect_and_plot_skip_policy 1 [⟨8, 6, 1⟩, ⟨8, 6, 2⟩] PyClasses.noneVal none
      (fun _ _ _ => .annotated ⟨640, 480, 5⟩) 1
      { det := ⟨1, 2, some ⟨640, 480, 5⟩⟩,
        result := .ret (some ⟨640, 480, 5⟩), invoked := none }
      ⟨8, 6, 2⟩ (Nat.le_refl 1) rfl rfl rfl⟩

/-- C3: with `skip_frames = 2` on a fresh detector, across 9 calls on valid
frames inference runs exactly on calls 1, 4 and 7, and each of the calls
2, 3, 5, 6, 8, 9 returns the cached result left by the previous call when
one exists, else its input frame unchanged. -/
theorem detect_skip2_nine_calls
    (f1 f2 f3 f4 f5 f6 f7 f8 f9 : Img) (classes : PyClasses)
    (cls : Option (List Int))
    (oracle : Nat → Img → Option (List Int) → InferOutcome)
    (hc : validateClasses classes = .ok cls) :
    ((runDetect (YoloDetector.fresh 2) oracle classes
        [f1, f2, f3, f4, f5, f6, f7, f8, f9]).map fun o => o.invoked.isSome)
      = [true, false, false, true, false, false, true, false, false] ∧
    (((runDetect (YoloDetector.fresh 2) oracle classes
        [f1, f2, f3, f4, f5, f6, f7, f8, f9]).getD 1 dummyOut).result
      = .ret (some (((runDetect (YoloDetector.fresh 2) oracle classes
        [f1, f2, f3, f4, f5, f6, f7, f8, f9]).getD 0 dummyOut).det.last_result.getD f2))) ∧
    (((runDetect (YoloDetector.fresh 2) oracle classes
        [f1, f2, f3, f4, f5, f6, f7, f8, f9]).getD 2 dummyOut).result
      = .ret (some (((runDetect (YoloDetector.fresh 2) oracle classes
        [f1, f2, f3, f4, f5, f6, f7, f8, f9]).getD 1 dummyOut).det.last_result.getD f3))) ∧
    (((runDetect (YoloDetector.fresh 2) oracle classes
        [f1, f2, f3, f4, f5, f6, f7, f8, f9]).getD 4 dummyOut).result
      = .ret (some (((runDetect (YoloDetector.fresh 2) oracle classes
        [f1, f2, f3, f4, f5, f6, f7, f8, f9]).getD 3 dummyOut).det.last_result.getD f5))) ∧
    (((runDetect (YoloDetector.fresh 2) oracle classes
        [f1, f2, f3, f4, f5, f6, f7, f8, f9]).getD 5 dummyOut).result
      = .ret (some (((runDetect (YoloDetector.fresh 2) oracle classes
        [f1, f2, f3, f4, f5, f6, f7, f8, f9]).getD 4 dummyOut).det.last_result.getD f6))) ∧
    (((runDetect (YoloDetector.fresh 2) oracle classes
        [f1, f2, f3, f4, f5, f6, f7, f8, f9]).getD 7 dummyOut).result
      = .ret (some (((runDetect (YoloDetector.fresh 2) oracle classes
        [f1, f2, f3, f4, f5, f6, f7, f8, f9]).getD 6 dummyOut).det.last_result.getD f8))) ∧
    (((runDetect (YoloDetector.fresh 2) oracle classes
        [f1, f2, f3, f4, f5, f6, f7, f8, f9]).getD 8 dummyOut).result
      = .ret (some (((runDetect (YoloDetector.fresh 2) oracle classes
        [f1, f2, f3, f4, f5, f6, f7, f8, f9]).getD 7 dummyOut).det.last_result.getD f9))) := by
  rcases h1 : oracle 0 (cvResize f1 640 480) cls with _ | _ | a1 <;>
    rcases h4 : oracle 3 (cvResize f4 640 480) cls with _ | _ | a4 <;>
      rcases h7 : oracle 6 (cvResize f7 640 480) cls with _ | _ | a7 <;>
        simp [runDetect, YoloDetector.detect_and_plot, YoloDetector.fresh,
          hc, h1, h4, h7]

/-- C3 witness: a concrete 9-frame run with an always-successful oracle;
the inference pattern is exactly calls 1, 4, 7. -/
theorem detect_skip2_nine_calls_witness :
    validateClasses PyClasses.noneVal = .ok none ∧
    ((runDetect (YoloDetector.fresh 2) (fun n _ _ => .annotated ⟨640, 480, n⟩)
        PyClasses.noneVal
        [⟨1, 1, 1⟩, ⟨2, 2, 2⟩, ⟨3, 3, 3⟩, ⟨4, 4, 4⟩, ⟨5, 5, 5⟩,
         ⟨6, 6, 6⟩, ⟨7, 7, 7⟩, ⟨8, 8, 8⟩, ⟨9, 9, 9⟩]).map
       fun o => o.invoked.isSome)
      = [true, false, false, true, false, false, true, false, false] :=
  ⟨rfl,
    (detect_skip2_nine_calls ⟨1, 1, 1⟩ ⟨2, 2, 2⟩ ⟨3, 3, 3⟩ ⟨4, 4, 4⟩ ⟨5, 5, 5⟩
      ⟨6, 6, 6⟩ ⟨7, 7, 7⟩ ⟨8, 8, 8⟩ ⟨9, 9, 9⟩ PyClasses.noneVal none
      (fun n _ _ => .annotated ⟨640, 480, n⟩) rfl).1⟩

/-- C9: on an inference-triggering call, a syntactically invalid `classes`
argument (a string, or an iterable with a non-int element) is normalised to
`None`, so the model is invoked with no class filter
(lines 49–54 of `src/detection.py`). -/
theorem detect_and_plot_invalid_classes_no_filter
    (d : YoloDetector) (img : Img) (classes : PyClasses)
    (oracle : Img → Option (List Int) → InferOutcome)
    (hinv : classesSyntacticallyInvalid classes)
    (htrig : (d.frame_count + 1) % (d.skip_frames + 1) = 1) :
    validateClasses classes = .ok none ∧
    (d.detect_and_plot (.ndarray img) classes oracle).invoked
      = some (cvResize img 640 480, none) := by
  have hval : validateClasses classes = .ok none := by
    rcases hinv with ⟨s, rfl⟩ | ⟨items, rfl, hmem⟩
    · rfl
    · have hall : items.all ClassItem.isInt = false := by
        by_contra hne
        have htrue : items.all ClassItem.isInt = true := by
          revert hne; cases items.all ClassItem.isInt <;> simp
        have := List.all_eq_true.mp htrue _ hmem
        simp [ClassItem.isInt] at this
      simp [validateClasses, hall]
  refine ⟨hval, ?_⟩
  rcases ho : oracle (cvResize img 640 480) none with _ | _ | a <;>
    simp [YoloDetector.detect_and_plot, htrig, hval, ho]

/-- C9 witness: a list containing a non-int element, on a triggering call. -/
theorem detect_and_plot_invalid_classes_no_filter_witness :
    classesSyntacticallyInvalid (.listVal [.intItem 0, .nonIntItem]) ∧
    (0 + 1) % (2 + 1) = 1 ∧
    validateClasses (.listVal [.intItem 0, .nonIntItem]) = .ok none ∧
    (YoloDetector.detect_and_plot ⟨2, 0, none⟩ (.ndarray ⟨640, 480, 1⟩)
        (.listVal [.intItem 0, .nonIntItem])
        fun _ _ => .resultsEmpty).invoked
      = some (cvResize ⟨640, 480, 1⟩ 640 480, none) := by
  refine ⟨Or.inr ⟨_, rfl, by simp⟩, rfl, ?_, ?_⟩
  · exact (detect_and_plot_invalid_classes_no_filter ⟨2, 0, none⟩ ⟨640, 480, 1⟩
      _ (fun _ _ => .resultsEmpty) (Or.inr ⟨_, rfl, by simp⟩) rfl).1
  · exact (detect_and_plot_invalid_classes_no_filter ⟨2, 0, none⟩ ⟨640, 480, 1⟩
      _ (fun _ _ => .resultsEmpty) (Or.inr ⟨_, rfl, by simp⟩) rfl).2

/-- C4 counterexample: when the camera fails to open, `run` returns at
line 43 of `src/capture_thread.py` without releasing the capture handle,
so the claim fails on the open-failure exit. -/
theorem capture_open_failure_handle_not_released :
    (VideoCaptureThread.run false (fun _ => true) 3).released = false :=
  rfl

/-- C4 amended: on the two loop exits — stop request and failed frame
read — `run` releases the capture handle before returning; on the failure
to open the camera, `run` returns without releasing it. -/
theorem capture_run_release_on_exit (reads : Nat → Bool) (stopAfter : Nat) :
    (VideoCaptureThread.run true reads stopAfter).released = true ∧
    VideoCaptureThread.run false reads stopAfter
      = { released := false, exitKind := .openFail } :=
  ⟨captureLoop_released reads stopAfter 0, rfl⟩

/-- C6: starting from a freshly constructed `VideoPlayer`, no sequence of
`start`, `pause`, `stop` (and `open`) operations can reach a state where
`isPlaying` and `isPaused` are both true (`src/video_player.py`). -/
theorem playback_flags_never_both (ops : List PlayerOp) :
    ¬((ops.foldl VideoPlayer.applyOp VideoPlayer.fresh).isPlaying = true ∧
      (ops.foldl VideoPlayer.applyOp VideoPlayer.fresh).isPaused = true) :=
  foldl_flagsOK ops VideoPlayer.fresh (by simp [flagsOK, VideoPlayer.fresh])

/-- C7: a second `stop()` after a completed `stop()` is a no-op on both
session kinds: the `VideoPlayer` state is unchanged and no timer-stop or
release call is made (its effect list is empty), and the
`VideoCaptureThread` flag state is unchanged. -/
theorem stop_twice_no_effect (p : VideoPlayer) (t : CaptureThreadState) :
    VideoPlayer.stop (VideoPlayer.stop p).1 = ((VideoPlayer.stop p).1, []) ∧
    CaptureThreadState.stop (CaptureThreadState.stop t)
      = CaptureThreadState.stop t :=
  ⟨rfl, rfl⟩

/-! ### Recording invariant lemmas -/

/-- The initial recording state satisfies the invariant. -/
theorem recInv_init : RecInv RecState.init :=
  ⟨by simp [RecState.init], by simp [RecState.init], fun _ => rfl⟩

/-- Releasing the current writer changes no field but `openHandles`. -/
theorem safe_release_fields (s : RecState) :
    s.safe_release.recordOut = s.recordOut ∧
    s.safe_release.isRecording = s.isRecording ∧
    s.safe_release.baseFilePath = s.baseFilePath ∧
    s.safe_release.nextId = s.nextId := by
  rcases ho : s.recordOut with _ | h <;> simp [RecState.safe_release, ho]

/-- Under the handle invariant, `safe_release` leaves no open handle. -/
theorem safe_release_openHandles (s : RecState)
    (h1 : s.openHandles.length ≤ 1)
    (h2 : ∀ h ∈ s.openHandles, s.recordOut = some h) :
    s.safe_release.openHandles = [] := by
  rcases hl : s.openHandles with _ | ⟨h, rest⟩
  · unfold RecState.safe_release
    cases ho : s.recordOut <;> simp [ho, hl]
  · have hrec : s.recordOut = some h :=
      h2 h (by rw [hl]; exact List.mem_cons_self _ _)
    have hrest : rest = [] := by
      rw [hl] at h1
      simpa using h1
    subst hrest
    unfold RecState.safe_release
    rw [hrec]
    simp [hl]

/-- When the recording flag is down, the invariant forces an empty set of
open handles. -/
theorem recInv_not_recording_empty (s : RecState) (hs : RecInv s)
    (hrec : s.isRecording = false) : s.openHandles = [] := by
  obtain ⟨h1, h2, h3⟩ := hs
  rcases hl : s.openHandles with _ | ⟨h, rest⟩
  · rfl
  · have := h2 h (by rw [hl]; exact List.mem_cons_self _ _)
    rw [h3 hrec] at this
    exact absurd this (by simp)

/-- Every intermediate state of a rollover keeps at most one open handle
(in particular the state between the release and the open has none), the
handle part of the invariant is re-established afterwards, and the
recording flag is untouched. -/
theorem start_new_save_file_inv (s : RecState) (ok : Bool) (hs : RecInv s) :
    (∀ t ∈ (s.start_new_save_file ok).1, t.openHandles.length ≤ 1) ∧
    (s.start_new_save_file ok).2.openHandles.length ≤ 1 ∧
    (∀ h ∈ (s.start_new_save_file ok).2.openHandles,
      (s.start_new_save_file ok).2.recordOut = some h) ∧
    (s.start_new_save_file ok).2.isRecording = s.isRecording := by
  obtain ⟨h1, h2, h3⟩ := hs
  unfold RecState.start_new_save_file
  rcases hb : s.baseFilePath with _ | p
  · exact ⟨by simp, h1, h2, rfl⟩
  · have hrel : (RecState.mk s.isRecording s.recordOut (some p)
        (s.recordSegmentCounter + 1) s.openHandles
        s.nextId).safe_release.openHandles = [] :=
      safe_release_openHandles _ h1 h2
    cases ok with
    | true =>
      refine ⟨?_, ?_, ?_, ?_⟩
      · intro t ht
        simp only [List.mem_cons, List.not_mem_nil, or_false] at ht
        rcases ht with rfl | rfl | rfl
        · exact h1
        · simp [hrel]
        · simp [hrel]
      · simp [hrel]
      · intro h hh
        simp [hrel] at hh
        simp [hh]
      · exact (safe_release_fields _).2.1
    | false =>
      refine ⟨?_, ?_, ?_, ?_⟩
      · intro t ht
        simp only [List.mem_cons, List.not_mem_nil, or_false] at ht
        rcases ht with rfl | rfl | rfl
        · exact h1
        · simp [hrel]
        · simp [hrel]
      · simp [hrel]
      · intro h hh
        simp [hrel] at hh
      · exact (safe_release_fields _).2.1

/-- Stopping the recording keeps at most one handle open at every
intermediate point, preserves the invariant, and leaves no open handle and
no current writer. -/
theorem stop_recording_inv (s : RecState) (hs : RecInv s) :
    (∀ t ∈ s.stop_recording.1, t.openHandles.length ≤ 1) ∧
    RecInv s.stop_recording.2 ∧
    s.stop_recording.2.openHandles = [] ∧
    s.stop_recording.2.recordOut = none := by
  obtain ⟨h1, h2, h3⟩ := hs
  rcases hrec : s.isRecording with _ | _
  · have hout : s.recordOut = none := h3 hrec
    have hemp : s.openHandles = [] :=
      recInv_not_recording_empty s ⟨h1, h2, h3⟩ hrec
    unfold RecState.stop_recording
    rw [hrec]
    simp only [Bool.false_eq_true, if_false]
    exact ⟨by simp, ⟨h1, h2, h3⟩, hemp, hout⟩
  · have hrel : (RecState.mk false s.recordOut s.baseFilePath
        s.recordSegmentCounter s.openHandles
        s.nextId).safe_release.openHandles = [] :=
      safe_release_openHandles _ h1 h2
    unfold RecState.stop_recording
    rw [hrec]
    simp only [if_true]
    refine ⟨?_, ⟨?_, ?_, ?_⟩, ?_, ?_⟩
    · intro t ht
      simp only [List.mem_cons, List.not_mem_nil, or_false] at ht
      rcases ht with rfl | rfl | rfl
      · exact h1
      · simp [hrel]
      · simp [hrel]
    · simp [hrel]
    · intro h hh
      simp [hrel] at hh
    · intro _; rfl
    · simp [hrel]
    · trivial

/-- Arming the recording keeps at most one handle open at every
intermediate point and preserves the invariant. -/
theorem start_recording_inv (s : RecState) (path : Option Nat) (ok : Bool)
    (hs : RecInv s) :
    (∀ t ∈ (s.start_recording path ok).1, t.openHandles.length ≤ 1) ∧
    RecInv (s.start_recording path ok).2 := by
  obtain ⟨h1, h2, h3⟩ := hs
  unfold RecState.start_recording
  rcases hrec : s.isRecording with _ | _
  · simp only [Bool.false_eq_true, if_false]
    rcases path with _ | p
    · refine ⟨?_, ?_, ?_, ?_⟩
      · intro t ht
        simp only [List.mem_cons, List.not_mem_nil, or_false] at ht
        rcases ht with rfl | rfl
        · exact h1
        · exact h1
      · exact h1
      · exact h2
      · intro _; exact h3 hrec
    · obtain ⟨htr, hl1, hl2, hlrec⟩ :=
        start_new_save_file_inv
          (RecState.mk true s.recordOut (some p) 0 s.openHandles s.nextId) ok
          ⟨h1, h2, by intro hf; simp at hf⟩
      refine ⟨?_, hl1, hl2, ?_⟩
      · intro t ht
        simp only [List.mem_cons] at ht
        rcases ht with rfl | rfl | ht
        · exact h1
        · exact h1
        · exact htr t ht
      · intro hf
        rw [hlrec] at hf
        simp at hf
  · simp only [if_true]
    exact ⟨by simp, h1, h2, h3⟩

/-- The frame-delivery path (with its timed rollover) keeps at most one
handle open at every intermediate point and preserves the invariant. -/
theorem update_frame_inv (s : RecState) (frameSome due ok : Bool)
    (hs : RecInv s) :
    (∀ t ∈ (s.update_frame frameSome due ok).1, t.openHandles.length ≤ 1) ∧
    RecInv (s.update_frame frameSome due ok).2 := by
  obtain ⟨h1, h2, h3⟩ := hs
  unfold RecState.update_frame
  rcases hrec : s.isRecording with _ | _
  · simp only [hrec, Bool.false_and, Bool.false_eq_true, if_false]
    exact ⟨by simp, h1, h2, h3⟩
  · rcases frameSome with _ | _
    · simp only [Bool.and_false, Bool.false_eq_true, if_false]
      exact ⟨by simp, h1, h2, h3⟩
    · simp only [Bool.and_true, hrec, if_true]
      rcases due with _ | _
      · simp only [Bool.false_eq_true, if_false]
        exact ⟨by simp, h1, h2, h3⟩
      · simp only [if_true]
        obtain ⟨htr, hl1, hl2, hlrec⟩ :=
          start_new_save_file_inv s ok ⟨h1, h2, h3⟩
        refine ⟨htr, hl1, hl2, ?_⟩
        intro hf
        rw [hlrec, hrec] at hf
        simp at hf

/-- The close-event release keeps at most one handle open and preserves
the invariant. -/
theorem closeRelease_inv (s : RecState) (hs : RecInv s) :
    (∀ t ∈ s.closeRelease.1, t.openHandles.length ≤ 1) ∧
    RecInv s.closeRelease.2 := by
  obtain ⟨h1, h2, h3⟩ := hs
  have hrel : s.safe_release.openHandles = [] :=
    safe_release_openHandles s h1 h2
  have hf := safe_release_fields s
  unfold RecState.closeRelease
  refine ⟨?_, ?_, ?_, ?_⟩
  · intro t ht
    simp only [List.mem_cons, List.not_mem_nil, or_false] at ht
    rcases ht with rfl
    simp [hrel]
  · simp [hrel]
  · intro h hh
    rw [hrel] at hh
    simp at hh
  · intro hfr
    rw [hf.1]
    exact h3 (by rw [← hf.2.1]; exact hfr)

/-- Every recording event keeps at most one handle open at every
intermediate point and preserves the invariant. -/
theorem rec_step_inv (s : RecState) (e : RecEvent) (hs : RecInv s) :
    (∀ t ∈ (s.step e).1, t.openHandles.length ≤ 1) ∧ RecInv (s.step e).2 := by
  cases e with
  | startRec path ok => exact start_recording_inv s path ok hs
  | frame frameSome due ok => exact update_frame_inv s frameSome due ok hs
  | stopRec =>
    obtain ⟨htr, hinv, -, -⟩ := stop_recording_inv s hs
    exact ⟨htr, hinv⟩
  | close => exact closeRelease_inv s hs

/-- Over any sequence of recording events, every intermediate state keeps
at most one handle open and the invariant holds at the end. -/
theorem recRun_inv : ∀ (evs : List RecEvent) (s : RecState), RecInv s →
    (∀ t ∈ recTrace s evs, t.openHandles.length ≤ 1) ∧
    RecInv (recExec s evs) := by
  intro evs
  induction evs with
  | nil => intro s hs; exact ⟨by simp [recTrace], hs⟩
  | cons e rest ih =>
    intro s hs
    obtain ⟨htr, hpost⟩ := rec_step_inv s e hs
    obtain ⟨htr', hpost'⟩ := ih _ hpost
    refine ⟨?_, hpost'⟩
    intro t ht
    rw [recTrace, List.mem_append] at ht
    rcases ht with h | h
    · exact htr t h
    · exact htr' t h

/-- Executing a concatenation of event lists is sequential composition. -/
theorem recExec_append : ∀ (l1 : List RecEvent) (s : RecState)
    (l2 : List RecEvent), recExec s (l1 ++ l2) = recExec (recExec s l1) l2 := by
  intro l1
  induction l1 with
  | nil => intro s l2; rfl
  | cons e rest ih => intro s l2; exact ih _ l2

/-- C5: from the initial window state, under any sequence of recording
events, every intermediate state of every operation — in particular the
point inside a rollover after `safe_release` and before the new
`cv2.VideoWriter` — has at most one open writer handle, and stopping the
recording leaves no open handle and no current writer. -/
theorem recording_at_most_one_writer_handle (evs : List RecEvent) :
    (∀ t ∈ recTrace RecState.init evs, t.openHandles.length ≤ 1) ∧
    (recExec RecState.init (evs ++ [RecEvent.stopRec])).openHandles = [] ∧
    (recExec RecState.init (evs ++ [RecEvent.stopRec])).recordOut = none := by
  obtain ⟨htr, hinv⟩ := recRun_inv evs RecState.init recInv_init
  obtain ⟨-, -, hemp, hnone⟩ :=
    stop_recording_inv (recExec RecState.init evs) hinv
  have happ : recExec RecState.init (evs ++ [RecEvent.stopRec])
      = (recExec RecState.init evs).stop_recording.2 := by
    rw [recExec_append]
    rfl
  exact ⟨htr, by rw [happ]; exact hemp, by rw [happ]; exact hnone⟩

end VideoSystem
